import Mathlib

/-!
Verification development for the SailPoint support-bot backend.

Shallow embedding of the Python sources:
  - backend/sailpoint_api.py : `SailPointAPI` (credentialed client) and
    `SailPointAPIClient` (capability-restricted facade),
  - backend/mcp_server.py    : the three MCP tool functions,
  - backend/main.py          : the tool schema handed to the LLM and the
    tool-dispatch part of the `chat` endpoint.

Python dicts are embedded as association lists of `PyVal`; the external HTTP
transport is an oracle mapping the index of each outbound call (per endpoint)
to either a response or an exception text, so that claims may quantify over
every behaviour of the external world.  HTTP-call counts are tracked in a
`Counters` record threaded through the operations.
-/

/-- The JSON object returned by the SailPoint refresh endpoint.  Only the four
fields the code consults (`status`, `userId`, `message`, `taskStatus`) are
modelled as optional strings; the rest of the payload is passed through the
code opaquely and is not needed by any property. -/
structure JsonObj where
  status : Option String := none
  userId : Option String := none
  message : Option String := none
  taskStatus : Option String := none
  deriving Repr, DecidableEq

/-- A Python value stored in one of the result dicts. -/
inductive PyVal where
  | str (s : String)
  | bool (b : Bool)
  | json (j : JsonObj)
  deriving Repr, DecidableEq

/-- A Python dict literal: keys in insertion order. -/
abbrev PyDict := List (String × PyVal)

/-- `d.get(k)` — `none` when the key is absent. -/
def dget (d : PyDict) (k : String) : Option PyVal :=
  (d.find? (fun p => p.1 == k)).map Prod.snd

/-- `k in d` as a boolean. -/
def dhas (d : PyDict) (k : String) : Bool :=
  d.any (fun p => p.1 == k)

/-- A response of the refresh endpoint: HTTP status, raw `response.text`, and
the outcome of `response.json()` (`.error e` models a JSON decode exception
with message `e`, raised only when the code calls `.json()`). -/
structure HttpResp where
  status : Nat
  text : String
  jsonBody : Except String JsonObj
  deriving Repr

/-- A response of the OAuth token endpoint: HTTP status and the outcome of
`response.json().get('access_token')` (`.error e` models a JSON decode
exception; `.ok none` a 200 body without an `access_token` key). -/
structure TokenResp where
  status : Nat
  jsonBody : Except String (Option String)
  deriving Repr

/-- The external world: `tokenResp n` (resp. `refreshResp n`) is the behaviour
of the n-th outbound call to the token (resp. refresh) endpoint — either a
response or a transport exception with message `e` (`.error e`).  `now` is the
value `datetime.now().isoformat()` produces during the operation. -/
structure Transport where
  now : String
  tokenResp : Nat → Except String TokenResp
  refreshResp : Nat → Except String HttpResp

/-- Counts of outbound HTTP calls actually issued, per endpoint. -/
structure Counters where
  tokenCalls : Nat
  refreshCalls : Nat
  deriving Repr, DecidableEq

def Counters.incTok (k : Counters) : Counters :=
  { k with tokenCalls := k.tokenCalls + 1 }

def Counters.incRef (k : Counters) : Counters :=
  { k with refreshCalls := k.refreshCalls + 1 }

/-- The credentialed client `SailPointAPI` (sailpoint_api.py): its four
instance attributes. -/
structure SailPointAPI where
  base_url : String
  client_id : String
  client_secret : String
  access_token : Option String
  deriving Repr, DecidableEq

/-- Python truthiness of `self.access_token`: falsy when `None` or `""`. -/
def pyFalsyToken : Option String → Bool
  | none => true
  | some s => s.isEmpty

/-- The token endpoint URL built in `_get_oauth_token`. -/
def SailPointAPI.token_url (st : SailPointAPI) : String :=
  st.base_url ++ "/identityiq/oauth2/token?grant_type=client_credentials"

/-- `SailPointAPI._get_oauth_token` (sailpoint_api.py lines 33-56): POSTs to
the token endpoint; on a 200 stores `response.json().get('access_token')`;
on any other status, transport exception or JSON decode exception stores
`None`.  Total: the `try/except` catches everything, so the embedding
returns plainly (the method never raises). -/
def SailPointAPI._get_oauth_token (t : Transport) (st : SailPointAPI)
    (k : Counters) : SailPointAPI × Counters :=
  match t.tokenResp k.tokenCalls with
  | .error _ => ({ st with access_token := none }, k.incTok)
  | .ok r =>
    if r.status = 200 then
      match r.jsonBody with
      | .ok tok => ({ st with access_token := tok }, k.incTok)
      | .error _ => ({ st with access_token := none }, k.incTok)
    else ({ st with access_token := none }, k.incTok)

/-- The refresh endpoint URL built in `trigger_refresh`. -/
def refreshUrl (base_url user_id : String) : String :=
  base_url ++ "/identityiq/plugin/rest/RefreshIdentity/refreshIdentitySingleUser?userId=" ++ user_id

/-- The dict returned on a 200 refresh response (built identically in the
first-try and retry branches of `trigger_refresh`). -/
def refreshSuccessDict (t : Transport) (user_id url : String) (j : JsonObj) : PyDict :=
  [("success", .bool (j.status == some "success")),
   ("user_id", .str (j.userId.getD user_id)),
   ("message", .str (j.message.getD ("Identity refresh triggered for " ++ user_id))),
   ("task_status", .str (j.taskStatus.getD "Unknown")),
   ("sailpoint_response", .json j),
   ("api_endpoint", .str url),
   ("timestamp", .str t.now)]

/-- The dict returned when the post-401 retry fails with a non-200 status. -/
def authRetryFailDict (t : Transport) (user_id : String) (r : HttpResp) : PyDict :=
  [("success", .bool false),
   ("user_id", .str user_id),
   ("message", .str ("Authentication failed: " ++ toString r.status)),
   ("error_details", .str r.text),
   ("timestamp", .str t.now)]

/-- The dict returned for any other (non-200/non-401) HTTP status. -/
def apiErrorDict (t : Transport) (user_id : String) (r : HttpResp) : PyDict :=
  [("success", .bool false),
   ("user_id", .str user_id),
   ("message", .str ("API error: " ++ toString r.status)),
   ("error_details", .str r.text),
   ("timestamp", .str t.now)]

/-- The dict the `except` clause of `trigger_refresh` returns, carrying the
exception text. -/
def refreshExceptDict (t : Transport) (user_id e : String) : PyDict :=
  [("success", .bool false),
   ("user_id", .str user_id),
   ("message", .str e),
   ("timestamp", .str t.now)]

/-- The `try` body of `trigger_refresh` (sailpoint_api.py lines 84-146).
Returns the state and counters as updated so far together with either the
result dict or a raised exception text (`.error e`): transport exceptions
surface directly from the oracle, JSON decode exceptions from `jsonBody`. -/
def trigger_refresh_attempt (t : Transport) (st : SailPointAPI) (k : Counters)
    (user_id : String) : (SailPointAPI × Counters) × Except String PyDict :=
  let url := refreshUrl st.base_url user_id
  match t.refreshResp k.refreshCalls with
  | .error e => ((st, k.incRef), .error e)
  | .ok r =>
    if r.status = 200 then
      match r.jsonBody with
      | .error e => ((st, k.incRef), .error e)
      | .ok j => ((st, k.incRef), .ok (refreshSuccessDict t user_id url j))
    else if r.status = 401 then
      -- 401: refresh the token once and retry the call once
      match SailPointAPI._get_oauth_token t st k.incRef with
      | (st2, k2) =>
        match t.refreshResp k2.refreshCalls with
        | .error e => ((st2, k2.incRef), .error e)
        | .ok r2 =>
          if r2.status = 200 then
            match r2.jsonBody with
            | .error e => ((st2, k2.incRef), .error e)
            | .ok j => ((st2, k2.incRef), .ok (refreshSuccessDict t user_id url j))
          else ((st2, k2.incRef), .ok (authRetryFailDict t user_id r2))
    else ((st, k.incRef), .ok (apiErrorDict t user_id r))

/-- `SailPointAPI.trigger_refresh` (sailpoint_api.py lines 76-154): lazy
authentication when the stored token is falsy (outside the `try`), then the
`try` body, with every raised exception converted by the `except` clause into
a failure dict carrying the exception text.  Total by construction. -/
def SailPointAPI.trigger_refresh (t : Transport) (st : SailPointAPI)
    (k : Counters) (user_id : String) : SailPointAPI × Counters × PyDict :=
  match (if pyFalsyToken st.access_token
         then SailPointAPI._get_oauth_token t st k
         else (st, k)) with
  | (st1, k1) =>
    match trigger_refresh_attempt t st1 k1 user_id with
    | ((st2, k2), .ok d) => (st2, k2, d)
    | ((st2, k2), .error e) => (st2, k2, refreshExceptDict t user_id e)

/-- `SailPointAPI.get_request_status` (sailpoint_api.py lines 65-74):
placeholder; issues no HTTP call and mutates nothing. -/
def SailPointAPI.get_request_status (st : SailPointAPI) (k : Counters)
    (request_id : String) : SailPointAPI × Counters × PyDict :=
  (st, k,
   [("success", .bool false),
    ("message", .str "This is a placeholder - API endpoint not yet configured"),
    ("request_id", .str request_id),
    ("note", .str "check_request_status is a dummy tool - no SailPoint API URL available")])

/-- `SailPointAPI.get_identity` (sailpoint_api.py lines 156-165):
placeholder; issues no HTTP call and mutates nothing. -/
def SailPointAPI.get_identity (st : SailPointAPI) (k : Counters)
    (user_id : String) : SailPointAPI × Counters × PyDict :=
  (st, k,
   [("success", .bool false),
    ("message", .str "This is a placeholder - API endpoint not yet configured"),
    ("user_id", .str user_id),
    ("note", .str "get_identity_info is a dummy tool - no SailPoint API URL available")])

/-- The facade `SailPointAPIClient` (sailpoint_api.py lines 168-211): its two
instance attributes.  `_api` is the reference stored by `__init__` under a
leading-underscore (convention-private) name; Python performs no access
control on it, so the embedding keeps it as an ordinary field. -/
structure SailPointAPIClient where
  _api : SailPointAPI
  base_url : String
  deriving Repr, DecidableEq

/-- `SailPointAPIClient.__init__`: stores the wrapped client and copies its
base URL (only the base URL, not the token endpoint). -/
def SailPointAPIClient.init (api : SailPointAPI) : SailPointAPIClient :=
  { _api := api, base_url := api.base_url }

/-- `SailPointAPIClient.trigger_refresh`: delegates verbatim to the wrapped
client (`return self._api.trigger_refresh(user_id)`). -/
def SailPointAPIClient.trigger_refresh (t : Transport) (c : SailPointAPIClient)
    (k : Counters) (user_id : String) : SailPointAPIClient × Counters × PyDict :=
  match SailPointAPI.trigger_refresh t c._api k user_id with
  | (api2, k2, d) => ({ c with _api := api2 }, k2, d)

/-- `SailPointAPIClient.get_request_status`: delegates verbatim. -/
def SailPointAPIClient.get_request_status (c : SailPointAPIClient)
    (k : Counters) (request_id : String) : SailPointAPIClient × Counters × PyDict :=
  match SailPointAPI.get_request_status c._api k request_id with
  | (api2, k2, d) => ({ c with _api := api2 }, k2, d)

/-- `SailPointAPIClient.get_identity`: delegates verbatim. -/
def SailPointAPIClient.get_identity (c : SailPointAPIClient)
    (k : Counters) (user_id : String) : SailPointAPIClient × Counters × PyDict :=
  match SailPointAPI.get_identity c._api k user_id with
  | (api2, k2, d) => ({ c with _api := api2 }, k2, d)

/-! ### mcp_server.py -/

/-- One observed invocation of a facade operation (instrumentation: records,
at the call sites in mcp_server.py, which facade method was invoked with
which argument). -/
inductive FacadeCall where
  | triggerRefresh (user_id : String)
  | getRequestStatus (request_id : String)
  | getIdentity (user_id : String)
  deriving Repr, DecidableEq

/-- The dict each MCP tool returns when the module-level `sailpoint_api`
client has not been set. -/
def notAuthDict : PyDict :=
  [("success", .bool false),
   ("message", .str "SailPoint API not authenticated. Please check backend configuration."),
   ("error", .str "API instance not set")]

/-- `trigger_identity_refresh` (mcp_server.py lines 42-79).  `g` is the
module-level `sailpoint_api` global; `reason` is logged only, never passed
downstream.  Besides the Python return value, the embedding reports the
facade calls made. -/
def mcp_trigger_identity_refresh (t : Transport) (g : Option SailPointAPIClient)
    (k : Counters) (user_id : String) (reason : String) :
    Option SailPointAPIClient × Counters × PyDict × List FacadeCall :=
  let _ := reason
  match g with
  | none => (none, k, notAuthDict, [])
  | some c =>
    match SailPointAPIClient.trigger_refresh t c k user_id with
    | (c2, k2, d) => (some c2, k2, d, [.triggerRefresh user_id])

/-- `check_request_status` (mcp_server.py lines 82-108). -/
def mcp_check_request_status (g : Option SailPointAPIClient) (k : Counters)
    (request_id : String) :
    Option SailPointAPIClient × Counters × PyDict × List FacadeCall :=
  match g with
  | none => (none, k, notAuthDict, [])
  | some c =>
    match SailPointAPIClient.get_request_status c k request_id with
    | (c2, k2, d) => (some c2, k2, d, [.getRequestStatus request_id])

/-- `get_identity_info` (mcp_server.py lines 111-137). -/
def mcp_get_identity_info (g : Option SailPointAPIClient) (k : Counters)
    (user_id : String) :
    Option SailPointAPIClient × Counters × PyDict × List FacadeCall :=
  match g with
  | none => (none, k, notAuthDict, [])
  | some c =>
    match SailPointAPIClient.get_identity c k user_id with
    | (c2, k2, d) => (some c2, k2, d, [.getIdentity user_id])

/-! ### main.py — tool schema and the chat turn -/

/-- One entry of a tool schema's `parameters.properties` object. -/
structure ToolParam where
  name : String
  type : String
  description : String
  deriving Repr, DecidableEq

/-- One `function` object of the `tools` array handed to the LLM. -/
structure ToolFunction where
  name : String
  description : String
  properties : List ToolParam
  required : List String
  deriving Repr, DecidableEq

/-- The `tools` array built inside `chat` (main.py lines 291-327), handed to
the LLM function-calling interface on every chat turn. -/
def tools : List ToolFunction :=
  [{ name := "trigger_identity_refresh",
     description := "Trigger identity refresh in SailPoint IIQ when user can\x27t access after approval, colleagues have access but they don\x27t, or dynamic access not working. Extract the username from the user\x27s message.",
     properties :=
       [{ name := "user_id", type := "string",
          description := "The username/user_id extracted from the message (e.g., \x27Ram\x27, \x27Aaron.Nichols\x27, \x27John.Smith\x27). Look for names mentioned in the message." },
        { name := "reason", type := "string",
          description := "Brief reason why refresh is needed (e.g., \x27Dynamic access not provisioned\x27, \x27Approved but can\x27t access\x27)" }],
     required := ["user_id"] },
   { name := "check_request_status",
     description := "Check access request status in SailPoint IIQ",
     properties :=
       [{ name := "request_id", type := "string",
          description := "Request ID or user ID" }],
     required := ["request_id"] }]

/-- The tool list the code itself reports at its `/mcp/status` endpoint
(main.py lines 494-498); these are also exactly the three functions
registered with `@mcp.tool()` in mcp_server.py. -/
def mcpStatusTools : List String :=
  ["trigger_identity_refresh", "check_request_status", "get_identity_info"]

/-- Parsed JSON arguments of a tool call: a string-to-string mapping. -/
abbrev Args := List (String × String)

/-- `args.get(key)`. -/
def aget? (a : Args) (key : String) : Option String :=
  (a.find? (fun p => p.1 == key)).map Prod.snd

/-- One tool call in the LLM response; `arguments` is the outcome of
`json.loads(tool_call.function.arguments)` (`.error e` models the
`json.loads` exception with message `e`). -/
structure RawToolCall where
  name : String
  arguments : Except String Args
  deriving Repr

/-- The outcome of the LLM call: either an exception raised while talking to
the LLM (`.exn`), or an assistant message with its text content and its
(possibly empty) list of tool calls. -/
inductive LlmOutcome where
  | exn (msg : String)
  | message (content : String) (tool_calls : List RawToolCall)
  deriving Repr

/-- What the chat turn produces: a normal `ChatResponse {response,
action_taken}`, or the `HTTPException(status, detail)` raised by the
`except` clause. -/
inductive ChatResult where
  | ok (response : String) (action_taken : Option String)
  | httpError (status : Nat) (detail : String)
  deriving Repr, DecidableEq

/-- `action_result.get(key, {})` where the stored value, when present, is the
raw SailPoint payload. -/
def getJsonField (d : PyDict) (key : String) : JsonObj :=
  match dget d key with
  | some (.json j) => j
  | _ => {}

/-- `action_result.get(key, dflt)` for string-valued fields. -/
def getStrField (d : PyDict) (key dflt : String) : String :=
  match dget d key with
  | some (.str s) => s
  | _ => dflt

/-- The fields of the refresh payload that are present, in the fixed field
order of the model. -/
def jsonFields (j : JsonObj) : List (String × String) :=
  ([("status", j.status), ("userId", j.userId), ("message", j.message),
    ("taskStatus", j.taskStatus)]).filterMap
    (fun p => p.2.map (fun v => (p.1, v)))

/-- Models `json.dumps(sailpoint_data, indent=2)`: a definite rendering of
the payload's present fields.  No property depends on the exact rendering. -/
def dumpsJson (j : JsonObj) : String :=
  match jsonFields j with
  | [] => "\x7b\x7d"
  | fs => "\x7b\n" ++
      String.intercalate ",\n"
        (fs.map (fun p => "  \"" ++ p.1 ++ "\": \"" ++ p.2 ++ "\"")) ++
      "\n\x7d"

/-- The f-string reply of the `trigger_identity_refresh` branch. -/
def refreshReply (sailpoint_message task_status : String) (sailpoint_data : JsonObj) : String :=
  sailpoint_message ++ "\n\nTask Status: " ++ task_status ++
  "\n\nPlease wait 2-3 minutes and try accessing the application again.\n\nSailPoint IIQ API Response:\n" ++
  dumpsJson sailpoint_data

/-- The body of the `chat` endpoint from the LLM call onwards (main.py lines
354-465), given the outcome `llm` of the LLM call: honours the first tool
call only, falls back to the request's `user_id` when the arguments carry
none, dispatches to the mcp_server tool functions, and formats the reply.
The surrounding `try/except` turns every exception raised while talking to
the LLM or parsing its arguments into
`HTTPException(500, "Error processing request: " + str(e))`.
`g` is the mcp_server module global holding the facade.  The embedding also
reports the facade calls made during the turn. -/
def chat_turn (t : Transport) (g : Option SailPointAPIClient) (k : Counters)
    (message_user_id : String) (llm : LlmOutcome) :
    Option SailPointAPIClient × Counters × ChatResult × List FacadeCall :=
  match llm with
  | .exn e => (g, k, .httpError 500 ("Error processing request: " ++ e), [])
  | .message content tool_calls =>
    match tool_calls with
    | [] => (g, k, .ok content none, [])
    | tc :: _ =>
      match tc.arguments with
      | .error e => (g, k, .httpError 500 ("Error processing request: " ++ e), [])
      | .ok args =>
        -- use user_id from function args if provided, otherwise from message
        let tool_user_id := (aget? args "user_id").getD message_user_id
        if tc.name == "trigger_identity_refresh" then
          match mcp_trigger_identity_refresh t g k tool_user_id
              ((aget? args "reason").getD "User access issue") with
          | (g2, k2, action_result, calls) =>
            let sailpoint_data := getJsonField action_result "sailpoint_response"
            let task_status :=
              getStrField action_result "task_status" (sailpoint_data.taskStatus.getD "Unknown")
            let sailpoint_message :=
              getStrField action_result "message" (sailpoint_data.message.getD "Identity refresh triggered")
            (g2, k2,
             .ok (refreshReply sailpoint_message task_status sailpoint_data)
               (some "identity_refresh_triggered"),
             calls)
        else if tc.name == "check_request_status" then
          -- NOTE: the source passes tool_user_id here, not the request_id argument
          match mcp_check_request_status g k tool_user_id with
          | (g2, k2, action_result, calls) =>
            let sailpoint_json := dumpsJson (getJsonField action_result "sailpoint_response")
            (g2, k2,
             .ok ("Request Status: " ++ getStrField action_result "status" "unknown" ++
                  "\n\nSailPoint IIQ API Response:\n\n" ++ sailpoint_json)
               (some "status_check"),
             calls)
        else if tc.name == "get_identity_info" then
          match mcp_get_identity_info g k tool_user_id with
          | (g2, k2, action_result, calls) =>
            let sailpoint_json := dumpsJson (getJsonField action_result "sailpoint_response")
            (g2, k2,
             .ok ("Identity Information:\n\nSailPoint IIQ API Response:\n\n" ++ sailpoint_json)
               (some "identity_info"),
             calls)
        else
          (g, k, .ok ("Tool \x27" ++ tc.name ++ "\x27 not recognized") none, [])

/-! ### Accessors reachable from a Facade reference

Python enforces no access control: a leading underscore is a naming
convention.  The following functions use only the Facade value they are
given. -/

/-- Reads the stored bearer token through the Facade's `_api` attribute. -/
def leak_access_token (c : SailPointAPIClient) : Option String :=
  c._api.access_token

/-- Reads the client ID through the Facade's `_api` attribute. -/
def leak_client_id (c : SailPointAPIClient) : String :=
  c._api.client_id

/-- Reads the client secret through the Facade's `_api` attribute. -/
def leak_client_secret (c : SailPointAPIClient) : String :=
  c._api.client_secret

/-- Rebuilds the token endpoint URL through the Facade's `_api` attribute
(`c._api._get_oauth_token` would POST to exactly this URL). -/
def leak_token_endpoint (c : SailPointAPIClient) : String :=
  c._api.token_url

/-- Invokes the authentication routine `_get_oauth_token` on the wrapped
client reached through the Facade's `_api` attribute. -/
def authenticate_via_facade (t : Transport) (c : SailPointAPIClient)
    (k : Counters) : SailPointAPIClient × Counters :=
  match SailPointAPI._get_oauth_token t c._api k with
  | (api2, k2) => ({ c with _api := api2 }, k2)

/-! ### Concrete fixtures -/

/-- A concrete credentialed client holding a token. -/
def api0 : SailPointAPI :=
  { base_url := "https://sp.example.com"
    client_id := "cid-1234567890"
    client_secret := "s3cret-value"
    access_token := some "tok-abc-123" }

/-- The facade wrapping `api0`, built exactly as `main.py` does at startup. -/
def facade0 : SailPointAPIClient := SailPointAPIClient.init api0

/-- A transport whose token endpoint always answers 200 with token
`tok-new` and whose refresh endpoint always answers 200 with a success
payload. -/
def tOk : Transport :=
  { now := "2026-01-01T00:00:00"
    tokenResp := fun _ => .ok { status := 200, jsonBody := .ok (some "tok-new") }
    refreshResp := fun _ =>
      .ok { status := 200, text := "ok"
            jsonBody := .ok { status := some "success", userId := some "Aaron.Nichols"
                              message := some "Refresh started", taskStatus := some "Queued" } } }

/-! ## Helper lemmas -/

/-- `_get_oauth_token` issues exactly one token-endpoint call, on every
branch. -/
lemma get_oauth_token_snd (t : Transport) (st : SailPointAPI) (k : Counters) :
    (SailPointAPI._get_oauth_token t st k).2 = k.incTok := by
  unfold SailPointAPI._get_oauth_token
  split
  · rfl
  · split
    · split <;> rfl
    · rfl

/-- `_get_oauth_token` mutates only the stored token. -/
lemma get_oauth_token_fst (t : Transport) (st : SailPointAPI) (k : Counters) :
    ∃ tok, (SailPointAPI._get_oauth_token t st k).1 = { st with access_token := tok } := by
  unfold SailPointAPI._get_oauth_token
  split
  · exact ⟨none, rfl⟩
  · split
    · split
      · exact ⟨_, rfl⟩
      · exact ⟨none, rfl⟩
    · exact ⟨none, rfl⟩

/-- The lazy-authentication step at the top of `trigger_refresh`: it leaves
the refresh-call counter alone and bumps the token-call counter exactly when
the stored token is falsy. -/
lemma lazy_auth_shape (t : Transport) (st : SailPointAPI) (k : Counters) :
    ∃ st1, (if pyFalsyToken st.access_token
            then SailPointAPI._get_oauth_token t st k
            else (st, k))
      = (st1, ⟨if pyFalsyToken st.access_token then k.tokenCalls + 1 else k.tokenCalls,
               k.refreshCalls⟩) ∧ st1.base_url = st.base_url := by
  by_cases hf : pyFalsyToken st.access_token
  · refine ⟨(SailPointAPI._get_oauth_token t st k).1, ?_, ?_⟩
    · rw [if_pos hf, if_pos hf]
      refine Prod.ext rfl ?_
      rw [get_oauth_token_snd]
      rfl
    · obtain ⟨tok, htok⟩ := get_oauth_token_fst t st k
      rw [htok]
  · exact ⟨st, by rw [if_neg hf, if_neg hf], rfl⟩

/-! ## Claims -/

/-- C1: the claim states that the Facade exposes no member or method by
which code holding a Facade reference can retrieve the stored access token,
the client ID or secret, the token endpoint URL, or invoke the
authentication routine, and that this is structural.  False: the reference
stored in the `_api` attribute is protected only by the leading-underscore
naming convention, and through that member all of these are retrieved from
the concrete facade `facade0`. -/
theorem c1_facade_leaks_counterexample :
    leak_access_token facade0 = some "tok-abc-123" ∧
    leak_client_id facade0 = "cid-1234567890" ∧
    leak_client_secret facade0 = "s3cret-value" ∧
    leak_token_endpoint facade0
      = "https://sp.example.com/identityiq/oauth2/token?grant_type=client_credentials" ∧
    (authenticate_via_facade tOk facade0 ⟨0, 0⟩).1._api.access_token = some "tok-new" :=
  ⟨rfl, rfl, rfl, rfl, rfl⟩

/-- C1 (amended): the Facade's surface consists of exactly two attributes —
the wrapped client `_api` and the non-secret `base_url` copied at
construction — and three methods that delegate verbatim to the wrapped
client; the Facade adds no token or credential accessor of its own, but the
inaccessibility of the wrapped client is a naming convention (leading
underscore), not structural. -/
theorem c1_facade_delegation_amended (t : Transport) (c : SailPointAPIClient)
    (k : Counters) (api : SailPointAPI) (u rid : String) :
    c = ⟨c._api, c.base_url⟩ ∧
    (SailPointAPIClient.init api).base_url = api.base_url ∧
    (SailPointAPIClient.init api)._api = api ∧
    (SailPointAPIClient.trigger_refresh t c k u).2.2
      = (SailPointAPI.trigger_refresh t c._api k u).2.2 ∧
    (SailPointAPIClient.get_request_status c k rid).2.2
      = (SailPointAPI.get_request_status c._api k rid).2.2 ∧
    (SailPointAPIClient.get_identity c k u).2.2
      = (SailPointAPI.get_identity c._api k u).2.2 := by
  refine ⟨rfl, rfl, rfl, ?_, rfl, rfl⟩
  unfold SailPointAPIClient.trigger_refresh
  rcases SailPointAPI.trigger_refresh t c._api k u with ⟨a, k2, d⟩
  rfl

/-- C3: the claim states that the tool-schema array handed to the LLM
contains exactly the three tool descriptors.  The array built in `chat`
declares only `trigger_identity_refresh` and `check_request_status`:
`get_identity_info` is absent, although the code's own `/mcp/status`
endpoint, its startup log and its MCP registrations all list three tools
and the dispatcher has a (dead) branch for it. -/
theorem c3_schema_missing_get_identity_info :
    tools.map ToolFunction.name = ["trigger_identity_refresh", "check_request_status"] ∧
    (tools.map ToolFunction.name).contains "get_identity_info" = false ∧
    tools.map ToolFunction.name ≠ mcpStatusTools ∧
    tools.map (fun f => (f.name, f.required))
      = [("trigger_identity_refresh", ["user_id"]), ("check_request_status", ["request_id"])] := by
  refine ⟨rfl, rfl, ?_, rfl⟩
  decide

/-- C4: the claim states that a `check_request_status` invocation carrying a
`request_id` argument results in the Facade's `get_request_status` being
called with that `request_id` value.  The dispatcher instead passes
`function_args.get("user_id", message.user_id)`: with arguments
`{"request_id": "REQ-123"}` and request user `anonymous`, the Facade is
called with `anonymous` and the `request_id` argument is ignored. -/
theorem c4_check_request_status_ignores_request_id :
    (chat_turn tOk (some facade0) ⟨0, 0⟩ "anonymous"
        (.message "" [{ name := "check_request_status"
                        arguments := .ok [("request_id", "REQ-123")] }])).2.2.2
      = [.getRequestStatus "anonymous"] ∧
    (chat_turn tOk (some facade0) ⟨0, 0⟩ "anonymous"
        (.message "" [{ name := "check_request_status"
                        arguments := .ok [("request_id", "REQ-123")] }])).2.2.2
      ≠ [FacadeCall.getRequestStatus "REQ-123"] := by
  refine ⟨rfl, ?_⟩
  decide

/-- C9: `get_request_status` and `get_identity` always return a dict with
`success = False` and the fixed placeholder message, leave the client state
and the HTTP-call counters untouched (no network call), for every input. -/
theorem c9_placeholders_fixed_failure (st : SailPointAPI) (k : Counters)
    (rid uid : String) :
    dget (SailPointAPI.get_request_status st k rid).2.2 "success" = some (.bool false) ∧
    dget (SailPointAPI.get_request_status st k rid).2.2 "message"
      = some (.str "This is a placeholder - API endpoint not yet configured") ∧
    (SailPointAPI.get_request_status st k rid).1 = st ∧
    (SailPointAPI.get_request_status st k rid).2.1 = k ∧
    dget (SailPointAPI.get_identity st k uid).2.2 "success" = some (.bool false) ∧
    dget (SailPointAPI.get_identity st k uid).2.2 "message"
      = some (.str "This is a placeholder - API endpoint not yet configured") ∧
    (SailPointAPI.get_identity st k uid).1 = st ∧
    (SailPointAPI.get_identity st k uid).2.1 = k :=
  ⟨rfl, rfl, rfl, rfl, rfl, rfl, rfl, rfl⟩

/-- C7: `_get_oauth_token` never raises (it is total, every branch returning
normally), and for every outcome of the token request: a 200 response whose
body parses stores the parsed `access_token` value; any non-200 response,
transport exception, or 200 response whose body fails to parse leaves the
stored token absent. -/
theorem c7_token_outcomes (t : Transport) (st : SailPointAPI) (k : Counters) :
    (∀ r tok, t.tokenResp k.tokenCalls = .ok r → r.status = 200 →
      r.jsonBody = .ok tok →
      (SailPointAPI._get_oauth_token t st k).1.access_token = tok) ∧
    (∀ r, t.tokenResp k.tokenCalls = .ok r → r.status ≠ 200 →
      (SailPointAPI._get_oauth_token t st k).1.access_token = none) ∧
    (∀ e, t.tokenResp k.tokenCalls = .error e →
      (SailPointAPI._get_oauth_token t st k).1.access_token = none) ∧
    (∀ r e, t.tokenResp k.tokenCalls = .ok r → r.status = 200 →
      r.jsonBody = .error e →
      (SailPointAPI._get_oauth_token t st k).1.access_token = none) := by
  refine ⟨?_, ?_, ?_, ?_⟩
  · intro r tok h1 h2 h3
    unfold SailPointAPI._get_oauth_token
    rw [h1]
    simp [h2, h3]
  · intro r h1 h2
    unfold SailPointAPI._get_oauth_token
    rw [h1]
    simp [h2]
  · intro e h1
    unfold SailPointAPI._get_oauth_token
    rw [h1]
  · intro r e h1 h2 h3
    unfold SailPointAPI._get_oauth_token
    rw [h1]
    simp [h2, h3]

/-- C7 witness: on the concrete transport `tOk` (token endpoint answers 200
with `tok-new`), a fresh authentication stores `tok-new`. -/
theorem c7_token_outcomes_witness :
    (SailPointAPI._get_oauth_token tOk api0 ⟨0, 0⟩).1.access_token = some "tok-new" :=
  (c7_token_outcomes tOk api0 ⟨0, 0⟩).1
    { status := 200, jsonBody := .ok (some "tok-new") } (some "tok-new") rfl rfl rfl

/-- Behaviour of the `try` body when the first refresh call yields a
transport exception. -/
lemma attempt_first_error (t : Transport) (st : SailPointAPI) (n : Nat)
    (u e : String) (h1 : t.refreshResp 0 = .error e) :
    trigger_refresh_attempt t st ⟨n, 0⟩ u = ((st, ⟨n, 1⟩), .error e) := by
  unfold trigger_refresh_attempt
  simp only [h1, Counters.incRef]

/-- Behaviour of the `try` body when the first refresh call returns 200. -/
lemma attempt_first_200 (t : Transport) (st : SailPointAPI) (n : Nat)
    (u : String) (r1 : HttpResp) (h1 : t.refreshResp 0 = .ok r1)
    (h200 : r1.status = 200) :
    trigger_refresh_attempt t st ⟨n, 0⟩ u =
      ((st, ⟨n, 1⟩),
       match r1.jsonBody with
       | .error e => .error e
       | .ok j => .ok (refreshSuccessDict t u (refreshUrl st.base_url u) j)) := by
  unfold trigger_refresh_attempt
  simp only [h1, h200, Counters.incRef]
  rcases r1.jsonBody with e | j <;> simp

/-- Behaviour of the `try` body when the first refresh call returns neither
200 nor 401. -/
lemma attempt_first_other (t : Transport) (st : SailPointAPI) (n : Nat)
    (u : String) (r1 : HttpResp) (h1 : t.refreshResp 0 = .ok r1)
    (hn2 : r1.status ≠ 200) (hn4 : r1.status ≠ 401) :
    trigger_refresh_attempt t st ⟨n, 0⟩ u = ((st, ⟨n, 1⟩), .ok (apiErrorDict t u r1)) := by
  unfold trigger_refresh_attempt
  simp [h1, hn2, hn4, Counters.incRef]

/-- Behaviour of the `try` body when the first refresh call returns 401:
one token-endpoint call, one retry of the refresh call (two refresh calls in
total), and the retry outcome decides the result. -/
lemma attempt_401 (t : Transport) (st : SailPointAPI) (n : Nat) (u : String)
    (r1 : HttpResp) (h1 : t.refreshResp 0 = .ok r1) (h401 : r1.status = 401) :
    (trigger_refresh_attempt t st ⟨n, 0⟩ u).1.2 = ⟨n + 1, 2⟩ ∧
    (trigger_refresh_attempt t st ⟨n, 0⟩ u).2 =
      (match t.refreshResp 1 with
       | .error e => .error e
       | .ok r2 =>
         if r2.status = 200 then
           match r2.jsonBody with
           | .error e => .error e
           | .ok j => .ok (refreshSuccessDict t u (refreshUrl st.base_url u) j)
         else .ok (authRetryFailDict t u r2)) := by
  unfold trigger_refresh_attempt
  simp only [h1, h401, Counters.incRef, Counters.incTok]
  simp only [get_oauth_token_snd, Counters.incTok]
  norm_num
  constructor
  · rcases hr2 : t.refreshResp 1 with e | r2
    · simp [hr2]
    · simp only [hr2]
      split
      · split <;> rfl
      · rfl
  · rcases hr2 : t.refreshResp 1 with e | r2
    · simp [hr2]
    · simp only [hr2]
      split
      · split <;> rfl
      · rfl

/-- `trigger_refresh` decomposed: lazy authentication, then the `try` body,
then the `except` clause on a raised exception. -/
lemma trigger_refresh_decomp (t : Transport) (st : SailPointAPI) (k : Counters)
    (u : String) :
    SailPointAPI.trigger_refresh t st k u =
      (let lz := if pyFalsyToken st.access_token
                 then SailPointAPI._get_oauth_token t st k
                 else (st, k)
       let a := trigger_refresh_attempt t lz.1 lz.2 u
       (a.1.1, a.1.2,
        match a.2 with
        | .ok d => d
        | .error e => refreshExceptDict t u e)) := by
  unfold SailPointAPI.trigger_refresh
  rcases hlz : (if pyFalsyToken st.access_token
                then SailPointAPI._get_oauth_token t st k
                else (st, k)) with ⟨st1, k1⟩
  rcases ha : trigger_refresh_attempt t st1 k1 u with ⟨⟨st2, k2⟩, d⟩
  simp only [hlz, ha]
  rcases d with e | d <;> rfl

/-- C2: whenever the first refresh request returns HTTP 401, `trigger_refresh`
issues exactly two HTTP calls to the refresh endpoint (never more),
re-authenticates against the token endpoint exactly once beyond the lazy
initial authentication (which happens exactly when the stored token was
falsy), and if the single retry returns a non-200 status the result is the
failure dict carrying the error body (`error_details = response.text`). -/
theorem c2_401_single_retry (t : Transport) (st : SailPointAPI) (u : String)
    (r1 : HttpResp) (h1 : t.refreshResp 0 = .ok r1) (h401 : r1.status = 401) :
    (SailPointAPI.trigger_refresh t st ⟨0, 0⟩ u).2.1.refreshCalls = 2 ∧
    (SailPointAPI.trigger_refresh t st ⟨0, 0⟩ u).2.1.tokenCalls
      = (if pyFalsyToken st.access_token then 1 else 0) + 1 ∧
    (∀ r2, t.refreshResp 1 = .ok r2 → r2.status ≠ 200 →
      (SailPointAPI.trigger_refresh t st ⟨0, 0⟩ u).2.2 = authRetryFailDict t u r2) := by
  obtain ⟨st1, hlz, hb⟩ := lazy_auth_shape t st ⟨0, 0⟩
  rw [trigger_refresh_decomp]
  simp only [hlz]
  obtain ⟨hc, hd⟩ :=
    attempt_401 t st1 (if pyFalsyToken st.access_token then 0 + 1 else 0) u r1 h1 h401
  refine ⟨?_, ?_, ?_⟩
  · rw [hc]
  · rw [hc]
  · intro r2 h2 hne
    simp only [h2] at hd
    rw [if_neg hne] at hd
    rw [hd]

/-- A transport whose refresh endpoint answers 401 and then 403, and whose
token endpoint answers 200. -/
def t401 : Transport :=
  { now := "2026-01-01T00:00:00"
    tokenResp := fun _ => .ok { status := 200, jsonBody := .ok (some "tok-new") }
    refreshResp := fun n =>
      if n = 0 then .ok { status := 401, text := "unauthorized", jsonBody := .error "no json" }
      else .ok { status := 403, text := "forbidden body", jsonBody := .error "no json" } }

/-- C2 witness: on the concrete transport `t401` (401 then 403), exactly two
refresh calls are made and the result is the failure dict carrying the 403
error body. -/
theorem c2_401_single_retry_witness :
    (SailPointAPI.trigger_refresh t401 api0 ⟨0, 0⟩ "Aaron.Nichols").2.1.refreshCalls = 2 ∧
    (SailPointAPI.trigger_refresh t401 api0 ⟨0, 0⟩ "Aaron.Nichols").2.2
      = authRetryFailDict t401 "Aaron.Nichols"
          { status := 403, text := "forbidden body", jsonBody := .error "no json" } := by
  have h := c2_401_single_retry t401 api0 "Aaron.Nichols"
    { status := 401, text := "unauthorized", jsonBody := .error "no json" } rfl rfl
  exact ⟨h.1, h.2.2 _ rfl (by decide)⟩

/-- Which decoded 200 body `trigger_refresh` ends up using, as a function of
the transport: the first response's body when it is a 200, the single
retry's body when the first response is a 401 and the retry a 200, nothing
otherwise. -/
def respBody200 (t : Transport) : Option JsonObj :=
  match t.refreshResp 0 with
  | .error _ => none
  | .ok r =>
    if r.status = 200 then
      match r.jsonBody with
      | .ok j => some j
      | .error _ => none
    else if r.status = 401 then
      match t.refreshResp 1 with
      | .error _ => none
      | .ok r2 =>
        if r2.status = 200 then
          match r2.jsonBody with
          | .ok j => some j
          | .error _ => none
        else none
    else none

/-- C5: whenever the HTTP response `trigger_refresh` acts on (first try or
single retry) is a 200 whose body decodes to `j`, the result has
`success = (j.status == "success")` and `user_id = j.userId` when that key
is present, else the requested user id. -/
theorem c5_success_mapping (t : Transport) (st : SailPointAPI) (u : String)
    (j : JsonObj) (h : respBody200 t = some j) :
    dget (SailPointAPI.trigger_refresh t st ⟨0, 0⟩ u).2.2 "success"
      = some (.bool (j.status == some "success")) ∧
    dget (SailPointAPI.trigger_refresh t st ⟨0, 0⟩ u).2.2 "user_id"
      = some (.str (j.userId.getD u)) := by
  obtain ⟨st1, hlz, hbase⟩ := lazy_auth_shape t st ⟨0, 0⟩
  unfold respBody200 at h
  rcases hr : t.refreshResp 0 with e | r
  · simp [hr] at h
  · simp only [hr] at h
    by_cases h200 : r.status = 200
    · rw [if_pos h200] at h
      rcases hb : r.jsonBody with e | j0
      · simp [hb] at h
      · rw [hb] at h
        injection h with hj
        subst hj
        rw [trigger_refresh_decomp]
        simp only [hlz]
        rw [attempt_first_200 t st1 (if pyFalsyToken st.access_token then 0 + 1 else 0)
              u r hr h200]
        simp only [hb]
        exact ⟨rfl, rfl⟩
    · by_cases h401 : r.status = 401
      · rw [if_neg h200, if_pos h401] at h
        rcases hr2 : t.refreshResp 1 with e2 | r2
        · simp [hr2] at h
        · simp only [hr2] at h
          by_cases h2200 : r2.status = 200
          · rw [if_pos h2200] at h
            rcases hb2 : r2.jsonBody with e2 | j0
            · simp [hb2] at h
            · rw [hb2] at h
              injection h with hj
              subst hj
              rw [trigger_refresh_decomp]
              simp only [hlz]
              obtain ⟨hc, hd⟩ :=
                attempt_401 t st1 (if pyFalsyToken st.access_token then 0 + 1 else 0)
                  u r hr h401
              simp only [hr2, if_pos h2200, hb2] at hd
              simp only [hd]
              exact ⟨rfl, rfl⟩
          · rw [if_neg h2200] at h
            simp at h
      · rw [if_neg h200, if_neg h401] at h
        simp at h

/-- C5 witness: on the concrete transport `tOk` (first try answers 200 with
a success payload for `Aaron.Nichols`), the result succeeds and echoes the
payload's `userId`. -/
theorem c5_success_mapping_witness :
    dget (SailPointAPI.trigger_refresh tOk api0 ⟨0, 0⟩ "someone-else").2.2 "success"
      = some (.bool true) ∧
    dget (SailPointAPI.trigger_refresh tOk api0 ⟨0, 0⟩ "someone-else").2.2 "user_id"
      = some (.str "Aaron.Nichols") := by
  have h := c5_success_mapping tOk api0 "someone-else"
    { status := some "success", userId := some "Aaron.Nichols"
      message := some "Refresh started", taskStatus := some "Queued" } rfl
  exact ⟨h.1, h.2⟩

/-- C6: `trigger_refresh` is total (the embedding returns a plain dict for
every transport behaviour: any status, any body, any raised exception), and
converts each non-success outcome into a structured failure dict: a
transport exception on either call, or a JSON decode failure, yields the
`except`-clause dict carrying the exception text; a non-200/non-401 status
yields the failure dict carrying the status and the response body. -/
theorem c6_no_raise_failure_result (t : Transport) (st : SailPointAPI) (u : String) :
    (∀ e, t.refreshResp 0 = .error e →
      (SailPointAPI.trigger_refresh t st ⟨0, 0⟩ u).2.2 = refreshExceptDict t u e) ∧
    (∀ r, t.refreshResp 0 = .ok r → r.status ≠ 200 → r.status ≠ 401 →
      (SailPointAPI.trigger_refresh t st ⟨0, 0⟩ u).2.2 = apiErrorDict t u r) ∧
    (∀ r e, t.refreshResp 0 = .ok r → r.status = 200 → r.jsonBody = .error e →
      (SailPointAPI.trigger_refresh t st ⟨0, 0⟩ u).2.2 = refreshExceptDict t u e) ∧
    (∀ r e, t.refreshResp 0 = .ok r → r.status = 401 → t.refreshResp 1 = .error e →
      (SailPointAPI.trigger_refresh t st ⟨0, 0⟩ u).2.2 = refreshExceptDict t u e) := by
  obtain ⟨st1, hlz, hbase⟩ := lazy_auth_shape t st ⟨0, 0⟩
  refine ⟨?_, ?_, ?_, ?_⟩
  · intro e hr
    rw [trigger_refresh_decomp]
    simp only [hlz]
    rw [attempt_first_error t st1 (if pyFalsyToken st.access_token then 0 + 1 else 0) u e hr]
  · intro r hr hn2 hn4
    rw [trigger_refresh_decomp]
    simp only [hlz]
    rw [attempt_first_other t st1 (if pyFalsyToken st.access_token then 0 + 1 else 0)
          u r hr hn2 hn4]
  · intro r e hr h200 hb
    rw [trigger_refresh_decomp]
    simp only [hlz]
    rw [attempt_first_200 t st1 (if pyFalsyToken st.access_token then 0 + 1 else 0)
          u r hr h200]
    simp only [hb]
  · intro r e hr h401 hr2
    rw [trigger_refresh_decomp]
    simp only [hlz]
    obtain ⟨hc, hd⟩ :=
      attempt_401 t st1 (if pyFalsyToken st.access_token then 0 + 1 else 0) u r hr h401
    simp only [hr2] at hd
    simp only [hd]

/-- A transport whose refresh endpoint raises a transport exception. -/
def tExn : Transport :=
  { now := "2026-01-01T00:00:00"
    tokenResp := fun _ => .ok { status := 200, jsonBody := .ok (some "tok-new") }
    refreshResp := fun _ => .error "Connection refused" }

/-- C6 witness: on the concrete transport `tExn` (the refresh call raises),
the result is the failure dict carrying the exception text. -/
theorem c6_no_raise_failure_result_witness :
    (SailPointAPI.trigger_refresh tExn api0 ⟨0, 0⟩ "Ram").2.2
      = refreshExceptDict tExn "Ram" "Connection refused" :=
  (c6_no_raise_failure_result tExn api0 "Ram").1 "Connection refused" rfl

/-- The result of the `try` body is always a raised exception text or one of
the three dict shapes built in the source. -/
lemma attempt_dict_shape (t : Transport) (st : SailPointAPI) (k : Counters)
    (u : String) :
    (∃ e, (trigger_refresh_attempt t st k u).2 = .error e) ∨
    (∃ j url, (trigger_refresh_attempt t st k u).2 = .ok (refreshSuccessDict t u url j)) ∨
    (∃ r, (trigger_refresh_attempt t st k u).2 = .ok (authRetryFailDict t u r)) ∨
    (∃ r, (trigger_refresh_attempt t st k u).2 = .ok (apiErrorDict t u r)) := by
  unfold trigger_refresh_attempt
  repeat' split
  all_goals
    first
    | exact Or.inl ⟨_, rfl⟩
    | exact Or.inr (Or.inl ⟨_, _, rfl⟩)
    | exact Or.inr (Or.inr (Or.inl ⟨_, rfl⟩))
    | exact Or.inr (Or.inr (Or.inr ⟨_, rfl⟩))

/-- C10: for every transport behaviour, starting counters and user id, the
dict `trigger_refresh` returns contains at least the keys `success`,
`user_id`, `message` and `timestamp` — on the first-try-200, retry-200,
failed-retry, other-status and exception branches alike. -/
theorem c10_result_keys_all_branches (t : Transport) (st : SailPointAPI)
    (k : Counters) (u : String) :
    (dhas (SailPointAPI.trigger_refresh t st k u).2.2 "success" &&
     dhas (SailPointAPI.trigger_refresh t st k u).2.2 "user_id" &&
     dhas (SailPointAPI.trigger_refresh t st k u).2.2 "message" &&
     dhas (SailPointAPI.trigger_refresh t st k u).2.2 "timestamp") = true := by
  rw [trigger_refresh_decomp]
  rcases attempt_dict_shape t
      (if pyFalsyToken st.access_token then SailPointAPI._get_oauth_token t st k else (st, k)).1
      (if pyFalsyToken st.access_token then SailPointAPI._get_oauth_token t st k else (st, k)).2
      u with ⟨e, he⟩ | ⟨j, url, he⟩ | ⟨r, he⟩ | ⟨r, he⟩ <;>
    simp only [he] <;> rfl

/-- C8: the claim states that an exception caught at the turn boundary
surfaces as a generic service error with no internal detail such as
exception messages in the response payload.  False: the `except` clause
raises `HTTPException(500, "Error processing request: " + str(e))`, so the
payload embeds the exception message — at the concrete exception `boom` the
detail is the prefix followed by `boom`, and two different exception
messages produce two different payloads. -/
theorem c8_error_detail_leaks_counterexample :
    (chat_turn tOk (some facade0) ⟨0, 0⟩ "anonymous" (.exn "boom")).2.2.1
      = .httpError 500 ("Error processing request: " ++ "boom") ∧
    (chat_turn tOk (some facade0) ⟨0, 0⟩ "anonymous" (.exn "boom")).2.2.1
      ≠ (chat_turn tOk (some facade0) ⟨0, 0⟩ "anonymous" (.exn "bam")).2.2.1 := by
  refine ⟨rfl, ?_⟩
  decide

/-- C8 (amended): every exception raised while talking to the LLM, and every
`json.loads` failure on the tool call's arguments, is caught at the turn
boundary and surfaced as an HTTP 500 error whose detail is the fixed prefix
`Error processing request: ` followed by the exception message: no stack
trace, but the exception message itself is included in the payload. -/
theorem c8_error_detail_amended (t : Transport) (g : Option SailPointAPIClient)
    (k : Counters) (mu e content nm : String) (rest : List RawToolCall) :
    (chat_turn t g k mu (.exn e)).2.2.1
      = .httpError 500 ("Error processing request: " ++ e) ∧
    (chat_turn t g k mu
        (.message content ({ name := nm, arguments := .error e } :: rest))).2.2.1
      = .httpError 500 ("Error processing request: " ++ e) :=
  ⟨rfl, rfl⟩
